import Mathlib

/-!
Shallow embedding of the counter backend (`src/backend/server.js`): the SQLite
`counter` table, its initialization, the two API request handlers, the route
dispatch with its 404 fallback, and the startup sequencing.  Each database
callback's error argument is modelled by an explicit fault flag.
-/

namespace CounterApp

/-- A row of the `counter` table: `id INTEGER PRIMARY KEY AUTOINCREMENT`,
`value INTEGER NOT NULL DEFAULT 0`. -/
structure Row where
  id : Nat
  value : Int
deriving DecidableEq

/-- The state of the `counter` table in `counter.db`: its list of rows. -/
structure DbState where
  rows : List Row
deriving DecidableEq

/-- An empty store: a fresh database file with no counter row. -/
def emptyDb : DbState := ⟨[]⟩

/-- Semantics of `SELECT value FROM counter WHERE id = 1`: the value of the
first row whose id is 1, if any. -/
def selectValueById1 (s : DbState) : Option Int :=
  (s.rows.find? (fun r => r.id == 1)).map Row.value

/-- Semantics of `SELECT COUNT(*) as count FROM counter`. -/
def countRows (s : DbState) : Nat := s.rows.length

/-- The id the next `INSERT` receives under AUTOINCREMENT: one more than the
largest id present (1 on an empty table; rows are never deleted). -/
def nextId (s : DbState) : Nat := (s.rows.map Row.id).foldr max 0 + 1

/-- Semantics of `INSERT INTO counter (value) VALUES (?)`. -/
def insertValue (s : DbState) (v : Int) : DbState :=
  ⟨s.rows ++ [⟨nextId s, v⟩]⟩

/-- The effect of `UPDATE counter SET value = value + 1 WHERE id = 1` on a
single row. -/
def incRow (r : Row) : Row :=
  if r.id == 1 then ⟨r.id, r.value + 1⟩ else r

/-- Semantics of `UPDATE counter SET value = value + 1 WHERE id = 1`. -/
def updateIncrementById1 (s : DbState) : DbState :=
  ⟨s.rows.map incRow⟩

/-- A response body sent by the server: a JSON object with a `value` field
(`res.json(\x7b value: ... \x7d)`), a JSON object with an `error` field, a
plain-text body, or the served frontend HTML page. -/
inductive Body where
  | jsonValue (v : Int)
  | jsonError (msg : String)
  | text (s : String)
  | html
deriving DecidableEq

/-- An HTTP response: status code and body. -/
structure Response where
  status : Nat
  body : Body
deriving DecidableEq

/-- Fault flag for the single `db.get` call of the GET handler. -/
structure GetFaults where
  selectFails : Bool
deriving DecidableEq

/-- Fault flags for the `db.run` (UPDATE) and `db.get` (SELECT) calls of the
increment handler. -/
structure IncFaults where
  updateFails : Bool
  selectFails : Bool
deriving DecidableEq

/-- Fault flags for the four storage operations of `initializeDatabase`:
opening the file, creating the table, counting rows, inserting the initial
row. -/
structure InitFaults where
  openFails : Bool
  createFails : Bool
  countFails : Bool
  insertFails : Bool
deriving DecidableEq

/-- Handler of `GET /api/counter` (`server.js` lines 101-118): on a select
error respond 500; when no row is found respond 200 with the default value 0;
otherwise respond 200 with the stored value.  Returns the resulting database
state together with the response. -/
def getCounter (s : DbState) (f : GetFaults) : DbState × Response :=
  if f.selectFails then
    (s, ⟨500, .jsonError "Failed to retrieve counter value."⟩)
  else
    match selectValueById1 s with
    | none => (s, ⟨200, .jsonValue 0⟩)
    | some v => (s, ⟨200, .jsonValue v⟩)

/-- Handler of `POST /api/counter/increment` (`server.js` lines 129-160): run
the UPDATE; on its error respond 500 with "Failed to increment counter
value.".  Then SELECT the new value; on its error respond 500 with "Failed to
retrieve new counter value."; when no row is found respond 500 with "Counter
row disappeared after increment."; otherwise respond 200 with the new
value. -/
def postIncrement (s : DbState) (f : IncFaults) : DbState × Response :=
  if f.updateFails then
    (s, ⟨500, .jsonError "Failed to increment counter value."⟩)
  else
    let s' := updateIncrementById1 s
    if f.selectFails then
      (s', ⟨500, .jsonError "Failed to retrieve new counter value."⟩)
    else
      match selectValueById1 s' with
      | none => (s', ⟨500, .jsonError "Counter row disappeared after increment."⟩)
      | some v => (s', ⟨200, .jsonValue v⟩)

/-- `initializeDatabase` (`server.js` lines 20-69): open the database, create
the table if absent, count the rows, and insert a row with value 0 when the
table is empty; any storage error rejects the promise. -/
def initializeDatabase (s : DbState) (f : InitFaults) : Except Unit DbState :=
  if f.openFails then .error ()
  else if f.createFails then .error ()
  else if f.countFails then .error ()
  else if countRows s == 0 then
    if f.insertFails then .error ()
    else .ok (insertValue s 0)
  else .ok s

/-- Outcome of process startup: either the HTTP server is listening with a
database handle, or the process exited with a code. -/
inductive StartupOutcome where
  | serving (db : DbState)
  | exited (code : Nat)
deriving DecidableEq

/-- Startup sequencing (`server.js` lines 74-89):
`initializeDatabase().then(db => app.listen(...)).catch(err =>
process.exit(1))`. -/
def startup (s : DbState) (f : InitFaults) : StartupOutcome :=
  match initializeDatabase s f with
  | .ok db => .serving db
  | .error _ => .exited 1

/-- An HTTP request as seen by the router: method and path. -/
structure Request where
  method : String
  path : String
deriving DecidableEq

/-- Whether a request matches one of the three defined routes:
`GET /api/counter`, `POST /api/counter/increment`, `GET /`. -/
def matchesRoute (req : Request) : Bool :=
  (req.method == "GET" && req.path == "/api/counter") ||
  (req.method == "POST" && req.path == "/api/counter/increment") ||
  (req.method == "GET" && req.path == "/")

/-- Route dispatch: Express tries the registered routes in order and falls
through to the final middleware, which responds
`res.status(404).send('404: Not Found')` (`server.js` lines 372-375). -/
def route (req : Request) (s : DbState) (gf : GetFaults) (pf : IncFaults) :
    DbState × Response :=
  if req.method == "GET" && req.path == "/api/counter" then getCounter s gf
  else if req.method == "POST" && req.path == "/api/counter/increment" then
    postIncrement s pf
  else if req.method == "GET" && req.path == "/" then (s, ⟨200, .html⟩)
  else (s, ⟨404, .text "404: Not Found"⟩)

/-- N sequential error-free increment requests. -/
def seqIncrements (s : DbState) : Nat → DbState
  | 0 => s
  | n + 1 => (postIncrement (seqIncrements s n) ⟨false, false⟩).1

/-- An atomic storage event in an interleaved execution: one increment
request's single-statement `UPDATE` (atomic in SQLite), or a read (`SELECT`),
which does not change the table. -/
inductive Event where
  | update
  | read
deriving DecidableEq

/-- Effect of one atomic event on the table. -/
def applyEvent (s : DbState) : Event → DbState
  | .update => updateIncrementById1 s
  | .read => s

/-- Run an interleaving of atomic events. -/
def runEvents (s : DbState) (es : List Event) : DbState :=
  es.foldl applyEvent s

/-- Number of increment-request updates in an interleaving. -/
def countUpdates (es : List Event) : Nat :=
  (es.filter (fun e => e == Event.update)).length

/-- The store produced by a fault-free initialization from the empty store. -/
def db0 : DbState := insertValue emptyDb 0

/-- States of the counter table reachable by the running system: produced by
a successful startup initialization from an empty store, and closed under the
two request handlers (with any faults) and under restart (a later successful
initialization). -/
inductive Reachable : DbState → Prop where
  | init (f : InitFaults) {s : DbState} :
      initializeDatabase emptyDb f = .ok s → Reachable s
  | get {s : DbState} (f : GetFaults) :
      Reachable s → Reachable (getCounter s f).1
  | post {s : DbState} (f : IncFaults) :
      Reachable s → Reachable (postIncrement s f).1
  | restart {s s' : DbState} (f : InitFaults) :
      Reachable s → initializeDatabase s f = .ok s' → Reachable s'

/-- Updating does not change a row's id, so the find predicate is preserved. -/
theorem incRow_id (r : Row) : (incRow r).id = r.id := by
  unfold incRow
  split <;> rfl

/-- The UPDATE commutes with the SELECT: after the update, the first row with
id 1 holds the old value plus one. -/
theorem selectValue_update (s : DbState) :
    selectValueById1 (updateIncrementById1 s) =
      (selectValueById1 s).map (fun v => v + 1) := by
  unfold selectValueById1 updateIncrementById1
  induction s.rows with
  | nil => rfl
  | cons r l ih =>
      simp only [List.map_cons, List.find?]
      by_cases h : r.id == 1
      · have h1 : (incRow r).id == 1 := by rw [incRow_id]; exact h
        rw [h1, h]
        simp [incRow, h]
      · have h1 : ((incRow r).id == 1) = false := by
          rw [incRow_id]; exact eq_false_of_ne_true h
        rw [h1, eq_false_of_ne_true h]
        exact ih

/-- On a fault-free run, the increment handler moves the state to the updated
table and responds from the select on that table. -/
theorem postIncrement_ok (s : DbState) (v : Int)
    (h : selectValueById1 s = some v) :
    postIncrement s ⟨false, false⟩ =
      (updateIncrementById1 s, ⟨200, .jsonValue (v + 1)⟩) := by
  unfold postIncrement
  simp only [if_neg Bool.false_ne_true]
  rw [selectValue_update, h]
  rfl

/-- The GET handler never changes the database state, whichever branch it
takes. -/
theorem getCounter_fst (s : DbState) (f : GetFaults) :
    (getCounter s f).1 = s := by
  unfold getCounter
  split
  · rfl
  · split <;> rfl

/-- The increment handler either leaves the state unchanged (UPDATE failed) or
moves it to the updated table. -/
theorem postIncrement_fst (s : DbState) (f : IncFaults) :
    (postIncrement s f).1 = s ∨
    (postIncrement s f).1 = updateIncrementById1 s := by
  unfold postIncrement
  dsimp only
  split
  · exact .inl rfl
  · split
    · exact .inr rfl
    · split <;> exact .inr rfl

/-- C1: for every stored counter value V, a fault-free increment request
responds 200 with value V + 1 and leaves V + 1 stored. -/
theorem increment_responds_plus_one (s : DbState) (v : Int)
    (h : selectValueById1 s = some v) :
    (postIncrement s ⟨false, false⟩).2 = ⟨200, .jsonValue (v + 1)⟩ ∧
    selectValueById1 (postIncrement s ⟨false, false⟩).1 = some (v + 1) := by
  rw [postIncrement_ok s v h]
  refine ⟨rfl, ?_⟩
  rw [selectValue_update, h]
  rfl

/-- Witness for C1 at the initialized store. -/
theorem increment_responds_plus_one_witness :
    (postIncrement db0 ⟨false, false⟩).2 = ⟨200, .jsonValue (0 + 1)⟩ ∧
    selectValueById1 (postIncrement db0 ⟨false, false⟩).1 = some (0 + 1) :=
  increment_responds_plus_one db0 0 (by decide)

/-- N fault-free increments add N to the stored value. -/
theorem seqIncrements_value (s : DbState) (v : Int) (n : Nat)
    (h : selectValueById1 s = some v) :
    selectValueById1 (seqIncrements s n) = some (v + n) := by
  induction n with
  | zero => simpa using h
  | succ n ih =>
      unfold seqIncrements
      rw [postIncrement_ok _ _ ih]
      rw [selectValue_update, ih]
      simp only [Option.map_some']
      congr 1
      push_cast
      ring

/-- C2: after N sequential error-free increments starting from stored value V,
a fault-free GET responds 200 with value V + N. -/
theorem get_after_n_increments (s : DbState) (v : Int) (n : Nat)
    (h : selectValueById1 s = some v) :
    getCounter (seqIncrements s n) ⟨false⟩ =
      (seqIncrements s n, ⟨200, .jsonValue (v + n)⟩) := by
  unfold getCounter
  simp only [if_neg Bool.false_ne_true]
  rw [seqIncrements_value s v n h]

/-- Witness for C2 with three increments from the initialized store. -/
theorem get_after_n_increments_witness :
    getCounter (seqIncrements db0 3) ⟨false⟩ =
      (seqIncrements db0 3, ⟨200, .jsonValue (0 + (3 : Nat))⟩) :=
  get_after_n_increments db0 0 3 (by decide)

/-- C3: starting from an empty store, startup initialization succeeds and the
server serves the initialized store, on which a fault-free GET responds 200
with value 0. -/
theorem empty_store_reads_zero :
    startup emptyDb ⟨false, false, false, false⟩ = .serving db0 ∧
    getCounter db0 ⟨false⟩ = (db0, ⟨200, .jsonValue 0⟩) :=
  ⟨rfl, rfl⟩

/-- C7: when no row with id 1 exists, the GET handler defaults to 200 with
value 0, while a fault-free increment responds 500. -/
theorem missing_row_read_defaults_increment_errors (s : DbState)
    (h : selectValueById1 s = none) :
    getCounter s ⟨false⟩ = (s, ⟨200, .jsonValue 0⟩) ∧
    (postIncrement s ⟨false, false⟩).2 =
      ⟨500, .jsonError "Counter row disappeared after increment."⟩ := by
  constructor
  · unfold getCounter
    simp only [if_neg Bool.false_ne_true]
    rw [h]
  · unfold postIncrement
    simp only [if_neg Bool.false_ne_true]
    rw [selectValue_update, h]
    rfl

/-- Witness for C7 at the empty store. -/
theorem missing_row_read_defaults_increment_errors_witness :
    (getCounter emptyDb ⟨false⟩ = (emptyDb, ⟨200, .jsonValue 0⟩) ∧
      (postIncrement emptyDb ⟨false, false⟩).2 =
        ⟨500, .jsonError "Counter row disappeared after increment."⟩) :=
  missing_row_read_defaults_increment_errors emptyDb (by decide)

/-- C8: when initialization fails the process exits with code 1, and the
server is serving only when initialization succeeded with that database. -/
theorem startup_serves_only_after_init (s : DbState) (f : InitFaults) :
    ((∃ e, initializeDatabase s f = .error e) → startup s f = .exited 1) ∧
    (∀ db, startup s f = .serving db → initializeDatabase s f = .ok db) := by
  constructor
  · rintro ⟨e, he⟩
    unfold startup
    rw [he]
  · intro db hdb
    unfold startup at hdb
    cases hinit : initializeDatabase s f with
    | ok d =>
        rw [hinit] at hdb
        injection hdb with h'
        rw [h']
    | error e =>
        rw [hinit] at hdb
        exact StartupOutcome.noConfusion hdb

/-- Witness for C8: a failing open at startup exits the process. -/
theorem startup_serves_only_after_init_witness :
    startup emptyDb ⟨true, false, false, false⟩ = .exited 1 :=
  (startup_serves_only_after_init emptyDb ⟨true, false, false, false⟩).1
    ⟨(), rfl⟩

/-- C10: the GET handler leaves the persisted state unchanged in every
branch. -/
theorem get_leaves_state_unchanged (s : DbState) (f : GetFaults) :
    (getCounter s f).1 = s :=
  getCounter_fst s f

/-- C4 fails on the code: the increment handler does not answer every storage
failure with the body "Failed to increment counter value.".  When the UPDATE
succeeds and the following SELECT fails, the body is "Failed to retrieve new
counter value.". -/
theorem increment_error_body_not_uniform :
    ¬ (∀ (s : DbState) (f : IncFaults), (f.updateFails || f.selectFails) = true →
        (postIncrement s f).2 =
          ⟨500, .jsonError "Failed to increment counter value."⟩) := by
  intro hclaim
  have h := hclaim db0 ⟨false, true⟩ rfl
  exact absurd h (by decide)

/-- C4 amended: on a storage failure the increment handler responds 500, with
body "Failed to increment counter value." when the UPDATE fails and "Failed to
retrieve new counter value." when the subsequent SELECT fails. -/
theorem increment_error_responses (s : DbState) (f : IncFaults)
    (h : f.updateFails = true ∨ f.selectFails = true) :
    (postIncrement s f).2.status = 500 ∧
    (postIncrement s f).2.body =
      (if f.updateFails then Body.jsonError "Failed to increment counter value."
        else Body.jsonError "Failed to retrieve new counter value.") := by
  obtain ⟨u, sel⟩ := f
  cases u <;> cases sel <;> simp_all [postIncrement]

/-- Witness for the amended C4: a failing UPDATE. -/
theorem increment_error_responses_witness :
    (postIncrement db0 ⟨true, false⟩).2.status = 500 ∧
    (postIncrement db0 ⟨true, false⟩).2.body =
      (if (IncFaults.mk true false).updateFails then
          Body.jsonError "Failed to increment counter value."
        else Body.jsonError "Failed to retrieve new counter value.") :=
  increment_error_responses db0 ⟨true, false⟩ (Or.inl rfl)

/-- C5 fails on the code: the 404 middleware sends the body
"404: Not Found", not "Not Found". -/
theorem unmatched_route_body_counterexample :
    ¬ (∀ (req : Request) (s : DbState) (gf : GetFaults) (pf : IncFaults),
        matchesRoute req = false →
        (route req s gf pf).2 = ⟨404, .text "Not Found"⟩) := by
  intro hclaim
  have h := hclaim ⟨"GET", "/nope"⟩ emptyDb ⟨false⟩ ⟨false, false⟩ (by decide)
  exact absurd h (by decide)

/-- C5 amended: every request matching none of the defined routes gets a 404
response whose plain-text body is "404: Not Found", with the state
unchanged. -/
theorem unmatched_route_404 (req : Request) (s : DbState) (gf : GetFaults)
    (pf : IncFaults) (h : matchesRoute req = false) :
    route req s gf pf = (s, ⟨404, .text "404: Not Found"⟩) := by
  unfold matchesRoute at h
  simp only [Bool.or_eq_false_iff] at h
  obtain ⟨⟨h1, h2⟩, h3⟩ := h
  unfold route
  rw [if_neg (by rw [h1]; exact Bool.false_ne_true),
    if_neg (by rw [h2]; exact Bool.false_ne_true),
    if_neg (by rw [h3]; exact Bool.false_ne_true)]

/-- Witness for the amended C5 at a concrete unmatched request. -/
theorem unmatched_route_404_witness :
    route ⟨"DELETE", "/api/counter"⟩ emptyDb ⟨false⟩ ⟨false, false⟩ =
      (emptyDb, ⟨404, .text "404: Not Found"⟩) :=
  unmatched_route_404 ⟨"DELETE", "/api/counter"⟩ emptyDb ⟨false⟩ ⟨false, false⟩
    (by decide)

/-- A successful initialization from the empty store yields exactly the store
with the single row id 1, value 0. -/
theorem init_empty_ok {f : InitFaults} {s : DbState}
    (h : initializeDatabase emptyDb f = .ok s) : s = db0 := by
  obtain ⟨o, c, n, i⟩ := f
  cases o <;> cases c <;> cases n <;> cases i <;>
    simp_all [initializeDatabase, countRows, emptyDb, db0]

/-- A successful initialization over a nonempty table leaves it unchanged. -/
theorem init_nonempty_ok {f : InitFaults} {s s' : DbState}
    (hne : countRows s ≠ 0)
    (h : initializeDatabase s f = .ok s') : s' = s := by
  obtain ⟨o, c, n, i⟩ := f
  cases o <;> cases c <;> cases n <;> cases i <;>
    simp_all [initializeDatabase]

/-- A successful initialization over a single-row table leaves it
unchanged. -/
theorem init_ok_of_single_row {f : InitFaults} {t t' : DbState} (v : Int)
    (hv : t.rows = [⟨1, v⟩]) (h : initializeDatabase t f = .ok t') : t' = t :=
  init_nonempty_ok (by unfold countRows; rw [hv]; simp) h

/-- Every reachable table consists of exactly the one row with id 1. -/
theorem reachable_single_row {s : DbState} (h : Reachable s) :
    ∃ v : Int, s.rows = [⟨1, v⟩] := by
  induction h with
  | init f hinit =>
      exact ⟨0, by rw [init_empty_ok hinit]; rfl⟩
  | get f _ ih =>
      obtain ⟨v, hv⟩ := ih
      exact ⟨v, by rw [getCounter_fst]; exact hv⟩
  | post f _ ih =>
      obtain ⟨v, hv⟩ := ih
      rcases postIncrement_fst _ f with h1 | h1
      · exact ⟨v, by rw [h1]; exact hv⟩
      · refine ⟨v + 1, ?_⟩
        rw [h1]
        show (_ : DbState).rows.map incRow = _
        rw [hv]
        rfl
  | restart f _ hinit ih =>
      obtain ⟨v, hv⟩ := ih
      rw [init_ok_of_single_row v hv hinit]
      exact ⟨v, hv⟩

/-- C6: in every reachable state exactly one counter row exists, and each
operation leaves the stored value unchanged or increases it by exactly 1: a
GET leaves the state intact, an increment yields the old value (UPDATE failed)
or the old value plus 1, and a successful re-initialization leaves the state
intact. -/
theorem single_row_and_monotone (s : DbState) (h : Reachable s) :
    (∃ v : Int, s.rows = [⟨1, v⟩]) ∧
    (∀ g : GetFaults, (getCounter s g).1 = s) ∧
    (∀ f : IncFaults, ∀ v : Int, selectValueById1 s = some v →
      selectValueById1 (postIncrement s f).1 = some v ∨
      selectValueById1 (postIncrement s f).1 = some (v + 1)) ∧
    (∀ fi : InitFaults, ∀ s' : DbState,
      initializeDatabase s fi = .ok s' → s' = s) := by
  refine ⟨reachable_single_row h, fun g => getCounter_fst s g, ?_, ?_⟩
  · intro f v hv
    rcases postIncrement_fst s f with h1 | h1
    · exact .inl (by rw [h1]; exact hv)
    · refine .inr ?_
      rw [h1, selectValue_update, hv]
      rfl
  · intro fi s' hinit
    obtain ⟨v, hv⟩ := reachable_single_row h
    exact init_ok_of_single_row v hv hinit

/-- Witness for C6 at the initialized store. -/
theorem single_row_and_monotone_witness :
    (∃ v : Int, db0.rows = [⟨1, v⟩]) ∧
    (∀ g : GetFaults, (getCounter db0 g).1 = db0) ∧
    (∀ f : IncFaults, ∀ v : Int, selectValueById1 db0 = some v →
      selectValueById1 (postIncrement db0 f).1 = some v ∨
      selectValueById1 (postIncrement db0 f).1 = some (v + 1)) ∧
    (∀ fi : InitFaults, ∀ s' : DbState,
      initializeDatabase db0 fi = .ok s' → s' = db0) :=
  single_row_and_monotone db0 (Reachable.init ⟨false, false, false, false⟩ rfl)

/-- C9: with each increment's UPDATE a single atomic statement, every
interleaving of K updates with reads ends with stored value V + K. -/
theorem concurrent_increments_no_lost_update (s : DbState) (v : Int)
    (es : List Event) (hv : selectValueById1 s = some v) :
    selectValueById1 (runEvents s es) = some (v + countUpdates es) := by
  induction es generalizing s v with
  | nil => simpa [runEvents, countUpdates] using hv
  | cons e es ih =>
      cases e with
      | read =>
          have h := ih s v hv
          simpa [runEvents, applyEvent, countUpdates, List.filter] using h
      | update =>
          have hv' : selectValueById1 (updateIncrementById1 s) = some (v + 1) := by
            rw [selectValue_update, hv]
            rfl
          have h := ih (updateIncrementById1 s) (v + 1) hv'
          have hrun : runEvents s (Event.update :: es) =
              runEvents (updateIncrementById1 s) es := rfl
          have hcnt : countUpdates (Event.update :: es) = countUpdates es + 1 := rfl
          rw [hrun, h, hcnt]
          congr 1
          push_cast
          ring

/-- Witness for C9 on a concrete interleaving of two updates and a read. -/
theorem concurrent_increments_no_lost_update_witness :
    selectValueById1
        (runEvents db0 [Event.update, Event.read, Event.update]) =
      some (0 + countUpdates [Event.update, Event.read, Event.update]) :=
  concurrent_increments_no_lost_update db0 0
    [Event.update, Event.read, Event.update] (by decide)

end CounterApp
